import Mathlib

/-!
Shallow embedding of the reverse-MCP relay (`examples/proxy_server.cpp`) and the
polling agent (`src/mcp_reverse_client.cpp`, `include/mcp_reverse_client.h`).

Conventions of the embedding:
* JSON payloads are opaque `String`s; the relay never inspects them.
* `std::queue` is a `List` with the front at the head (push appends at the tail).
* `std::map` keyed by strings is an association list; the relay-level session map
  is kept sorted by key in ascending `String` order, mirroring `std::map`
  iteration order (`sessions.begin()` is the head of the list).
* Wall-clock instants (`steady_clock::now()`) are `Nat` parameters named `now`.
* Randomness (`std::mt19937` driven nibble draws) is an explicit input stream.
* Network effects of the agent are explicit inputs: the HTTP library's result is
  passed in as data (transport failure, status code, parsed body).
The semantics of each handler is the sequential one: a handler runs to
completion without interleaved mutation; an interleaving of two handler calls
is modelled by composing the two state transformers in either order.
-/

/-- `generate_id` (proxy_server.cpp lines 48-59): renders one nibble in
`std::hex` lowercase, as `stringstream` does for values 0..15. -/
def hexDigit (n : Fin 16) : Char :=
  if n.val < 10 then Char.ofNat (48 + n.val) else Char.ofNat (87 + n.val)

/-- `generate_id` (proxy_server.cpp lines 48-59): draws 16 values uniformly
from 0..15 and streams them in hex, producing a 16-character string. The
random source is modelled as the stream `draw` of nibble values. -/
def generate_id (draw : Nat → Fin 16) : String :=
  String.mk ((List.range 16).map (fun i => hexDigit (draw i)))

/-- `struct pending_request` (proxy_server.cpp lines 27-32). The
`response_promise` is represented implicitly: resolving it is an observable
output of the response handler (`response_result.resolved`), and the enqueue
`timestamp` field is not read anywhere, so both are left out of the state. -/
structure pending_request where
  request_id : String
  request_data : String
  deriving Repr, DecidableEq

/-- `struct server_session` (proxy_server.cpp lines 35-41): the FIFO queue of
pending requests (head = front), the in-flight index keyed by request id, and
the last-activity timestamp. The `session_id` field lives as the key of the
relay-level session map. -/
structure server_session where
  pending_requests : List pending_request
  in_flight_requests : List (String × pending_request)
  last_activity : Nat
  deriving Repr, DecidableEq

/-- `std::map::erase` on the in-flight index. -/
def mapErase (m : List (String × pending_request)) (k : String) :
    List (String × pending_request) :=
  m.filter (fun p => p.1 != k)

/-- `in_flight_requests[request_id] = request` (`std::map::operator[]`
assignment): any stale entry under the key is replaced. -/
def mapInsert (m : List (String × pending_request)) (k : String)
    (v : pending_request) : List (String × pending_request) :=
  mapErase m k ++ [(k, v)]

/-- The long-poll wait loop of the `/poll` handler (proxy_server.cpp lines
144-163). If the queue is non-empty when the loop checks it, the loop pops the
front request, inserts it into the in-flight index, updates `last_activity`,
and breaks — but the local `request` variable holding it is scoped inside the
loop body, so the popped request is not communicated past the `break`.
Sequentially the loop finds work exactly when the queue is non-empty at
entry. -/
def poll_wait_loop (s : server_session) (now : Nat) : server_session :=
  match s.pending_requests with
  | [] => s
  | r :: rest =>
      { s with
        pending_requests := rest
        in_flight_requests := mapInsert s.in_flight_requests r.request_id r
        last_activity := now }

/-- The dequeue block that follows the wait loop (proxy_server.cpp lines
165-173): pops the front request again — a second, distinct pop — promotes it
to in-flight (without touching `last_activity`), and this one is the request
the handler returns. -/
def poll_second_dequeue (s : server_session) :
    Option pending_request × server_session :=
  match s.pending_requests with
  | [] => (none, s)
  | r :: rest =>
      (some r,
       { s with
         pending_requests := rest
         in_flight_requests := mapInsert s.in_flight_requests r.request_id r })

/-- The session-state effect and returned request of one `/poll` call
(proxy_server.cpp lines 144-186): the wait loop followed by the second dequeue
block. The handler answers 200 with the returned request when it is `some`,
and 204 otherwise. -/
def poll_session (s : server_session) (now : Nat) :
    Option pending_request × server_session :=
  poll_second_dequeue (poll_wait_loop s now)

/-- Observable outcome of the `/response` handler on a known session:
the HTTP status and, when a waiter is resolved, the in-flight request that was
removed together with the payload its promise was fulfilled with. -/
structure response_result where
  status : Nat
  resolved : Option (pending_request × String)
  deriving Repr, DecidableEq

/-- The `/response` handler body on a known session with a well-formed body
(proxy_server.cpp lines 215-247): look the request id up in the in-flight
index; if present, erase it, update `last_activity`, and fulfil its promise
with the payload; if absent, only log a warning. Either way the reply is
`200 {status:"ok"}`. -/
def response_session (request_id payload : String) (s : server_session)
    (now : Nat) : response_result × server_session :=
  match s.in_flight_requests.lookup request_id with
  | some r =>
      (⟨200, some (r, payload)⟩,
       { s with
         in_flight_requests := mapErase s.in_flight_requests request_id
         last_activity := now })
  | none => (⟨200, none⟩, s)

/-- The enqueue step of the `/message` handler (proxy_server.cpp lines
277-288): a fresh pending request is pushed at the back of the chosen
session's queue. -/
def message_enqueue (rid payload : String) (s : server_session) :
    server_session :=
  { s with pending_requests := s.pending_requests ++ [⟨rid, payload⟩] }

/-- The timeout branch of the `/message` handler (proxy_server.cpp lines
299-302): when `response_future.wait_for` expires the handler sets status 504
and returns; it performs no further mutation of the session — in particular
nothing is removed from the in-flight index. -/
def message_timeout_branch (s : server_session) : Nat × server_session :=
  (504, s)

/-- The global session map (proxy_server.cpp line 44), an association list
sorted by session id in ascending order like `std::map`. -/
structure relay_state where
  sessions : List (String × server_session)
  deriving Repr, DecidableEq

/-- The `std::map` ordering invariant of the session map: keys strictly
ascending (hence unique). -/
def sessions_sorted (rl : relay_state) : Prop :=
  rl.sessions.Pairwise (fun a b => a.1 < b.1)

/-- In-place mutation of one session through its `shared_ptr`: the relay map
entry under `sid` now holds the updated session. -/
def update_session (rl : relay_state) (sid : String) (s' : server_session) :
    relay_state :=
  ⟨rl.sessions.map (fun p => if p.1 == sid then (p.1, s') else p)⟩

/-- `std::map` insert-or-assign used by `/register`
(`sessions[session_id] = session`, proxy_server.cpp line 98), keeping the
association list sorted. -/
def sorted_insert (sid : String) (s : server_session) :
    List (String × server_session) → List (String × server_session)
  | [] => [(sid, s)]
  | p :: rest =>
      if sid < p.1 then (sid, s) :: p :: rest
      else if sid == p.1 then (sid, s) :: rest
      else p :: sorted_insert sid s rest

/-- The `/register` handler (proxy_server.cpp lines 81-116): on a parsable
body, create an empty session under a freshly generated id and answer 200 with
the id; on a parse failure answer 400. -/
def register_handler (rl : relay_state) (new_sid : String) (now : Nat)
    (parse_ok : Bool) : (Nat × Option String) × relay_state :=
  if parse_ok then
    ((200, some new_sid), ⟨sorted_insert new_sid ⟨[], [], now⟩ rl.sessions⟩)
  else ((400, none), rl)

/-- The `/poll` handler at the relay level (proxy_server.cpp lines 119-187):
404 on an unknown session id, otherwise run the poll cycle on the session and
answer 200 with the returned request or 204 when there is none. -/
def poll_handler (rl : relay_state) (sid : String) (now : Nat) :
    (Nat × Option pending_request) × relay_state :=
  match rl.sessions.lookup sid with
  | none => ((404, none), rl)
  | some s =>
      let res := poll_session s now
      ((if res.1.isSome then 200 else 204, res.1), update_session rl sid res.2)

/-- The `/response` handler at the relay level (proxy_server.cpp lines
190-253): 404 on an unknown session id, otherwise the session-level handler. -/
def response_handler (rl : relay_state) (sid rid payload : String)
    (now : Nat) : (Nat × Option (pending_request × String)) × relay_state :=
  match rl.sessions.lookup sid with
  | none => ((404, none), rl)
  | some s =>
      let res := response_session rid payload s now
      ((res.1.status, res.1.resolved), update_session rl sid res.2)

/-- Outcome of the `/message` handler's wait on the response future
(proxy_server.cpp line 293): the promise was fulfilled with a payload within
60 seconds, or the wait timed out. -/
inductive wait_outcome where
  | ready (payload : String)
  | timeout
  deriving Repr, DecidableEq

/-- Observables of one `/message` call: the HTTP status, the session id the
request was routed to (the handler's selected `session`), and the payload
returned to the external caller. -/
structure message_result where
  status : Nat
  routed_to : Option String
  payload : Option String
  deriving Repr, DecidableEq

/-- The `/message` handler (proxy_server.cpp lines 256-308): if the session
map is empty answer 503; otherwise select `sessions.begin()` — the first entry
of the ordered map — then on a parse failure answer 400, else enqueue a fresh
pending request on the selected session and wait on its promise: 200 with the
response payload when it resolves, 504 on timeout. `body` is `none` when
`json::parse` throws, `rid` is the generated request id, and `w` is the
outcome of the wait. -/
def message_handler (rl : relay_state) (rid : String) (body : Option String)
    (w : wait_outcome) : message_result × relay_state :=
  match rl.sessions with
  | [] => (⟨503, none, none⟩, rl)
  | (sid, s) :: _ =>
      match body with
      | none => (⟨400, some sid, none⟩, rl)
      | some payload_in =>
          let rl1 := update_session rl sid (message_enqueue rid payload_in s)
          match w with
          | .ready p => (⟨200, some sid, some p⟩, rl1)
          | .timeout => (⟨(message_timeout_branch (message_enqueue rid payload_in s)).1, some sid, none⟩, rl1)

/-- All request ids present in one session, queued ones first. -/
def session_request_ids (s : server_session) : List String :=
  s.pending_requests.map (fun r => r.request_id) ++
    s.in_flight_requests.map (fun p => p.1)

/-- All request ids present anywhere in the relay, session by session. -/
def relay_request_ids (rl : relay_state) : List String :=
  rl.sessions.flatMap (fun p => session_request_ids p.2)

/-- The §3 invariant: every request id appears in at most one place — at most
one session, and within it in at most one of the queue and the in-flight
index. -/
def request_id_invariant (rl : relay_state) : Prop :=
  (relay_request_ids rl).Nodup

/-- `reverse_client::configuration` (mcp_reverse_client.h lines 39-57) with
the defaulted fields the claims read. -/
structure client_config where
  poll_timeout_seconds : Nat := 30
  retry_delay_seconds : Nat := 5
  deriving Repr, DecidableEq

/-- The mutable state of a `reverse_client` that the claims observe: the
stored session id, the `running_` flag, and whether the poll loop was entered
(either inline for a blocking start or on the polling thread). -/
structure client_state where
  session_id : String
  running : Bool
  poll_loop_started : Bool
  deriving Repr, DecidableEq

/-- The HTTP result of the registration POST as seen by
`register_with_proxy`: `none` models a transport failure (`!res`); otherwise
the status code together with the parse of the body — `none` when
`json::parse` throws, `some fields` the parsed JSON object viewed as its
string-valued fields. -/
def reg_http_result : Type :=
  Option (Nat × Option (List (String × String)))

/-- `reverse_client::register_with_proxy` (mcp_reverse_client.cpp lines
104-141): fail on transport failure, on a status other than 200, on an
unparsable body, and on a parsed body missing `session_id`; on success store
the received session id and return true. -/
def register_with_proxy (res : reg_http_result) (st : client_state) :
    Bool × client_state :=
  match res with
  | none => (false, st)
  | some (status, body) =>
      if status != 200 then (false, st)
      else
        match body with
        | none => (false, st)
        | some fields =>
            match fields.lookup "session_id" with
            | none => (false, st)
            | some sid => (true, { st with session_id := sid })

/-- `reverse_client::start` (mcp_reverse_client.cpp lines 48-77): if already
running return true; otherwise register once — on failure return false with
no further effect; on success set `running_` and enter the poll loop (inline
when `blocking`, else on a new thread). -/
def reverse_start (blocking : Bool) (res : reg_http_result)
    (st : client_state) : Bool × client_state :=
  if st.running then (true, st)
  else
    match register_with_proxy res st with
    | (false, st1) => (false, st1)
    | (true, st1) =>
        let st2 := { st1 with running := true, poll_loop_started := true }
        if blocking then (true, st2) else (true, st2)

/-- `reverse_client::is_running` (mcp_reverse_client.cpp lines 95-97). -/
def is_running (st : client_state) : Bool :=
  st.running

/-- The registration failure modes named by the spec: connection failure,
non-200 status, unparsable body, or a parsed body missing `session_id`. -/
def registration_failed (res : reg_http_result) : Prop :=
  match res with
  | none => True
  | some (status, body) =>
      status ≠ 200 ∨ body = none ∨
        (∃ fields, body = some fields ∧ fields.lookup "session_id" = none)

/-- The parse of the body of a 200 `/poll` reply as `process_poll` consumes
it: `unparsable` when `json::parse` (or the extraction of the mandatory
`jsonrpc`/`method` fields) throws, `missing_fields` when `request_id` or
`request` is absent, `work` a fully decoded request. -/
inductive poll_body where
  | unparsable
  | missing_fields
  | work (request_id : String) (request_payload : String)
  deriving Repr, DecidableEq

/-- The HTTP result of one poll GET: transport failure (`!res`) or a status
code with a body. -/
inductive poll_http_result where
  | conn_fail
  | reply (status : Nat) (body : poll_body)
  deriving Repr, DecidableEq

/-- `reverse_client::process_poll` (mcp_reverse_client.cpp lines 162-219):
false on transport failure; true on 204 (no work is a normal outcome); false
on any other non-200 status; on 200, false when the body is unusable,
otherwise dispatch the request and report whether `send_response` succeeded
(`send_ok`). -/
def process_poll (res : poll_http_result) (send_ok : Bool) : Bool :=
  match res with
  | .conn_fail => false
  | .reply status body =>
      if status == 204 then true
      else if status != 200 then false
      else
        match body with
        | .unparsable => false
        | .missing_fields => false
        | .work _ _ => send_ok

/-- One iteration of `reverse_client::poll_loop` (mcp_reverse_client.cpp
lines 146-157): when `process_poll` reports failure the loop sleeps
`retry_delay_seconds` before the next poll; the iteration never modifies the
client state, in particular `running_` stays as it was. The returned `Nat` is
the seconds slept before re-polling. -/
def poll_loop_iteration (cfg : client_config) (res : poll_http_result)
    (send_ok : Bool) (st : client_state) : Nat × client_state :=
  if process_poll res send_ok then (0, st)
  else (cfg.retry_delay_seconds, st)

/-- The sixteen lowercase hex characters `generate_id` can emit. -/
def hex_alphabet : List Char :=
  "0123456789abcdef".data

theorem subperm_count_le {α : Type} [DecidableEq α] {l₁ l₂ : List α}
    (h : List.Subperm l₁ l₂) (x : α) : List.count x l₁ ≤ List.count x l₂ :=
  h.countP_le (· == x)

theorem subperm_append_left_of {α : Type} [DecidableEq α] (l : List α)
    {l₁ l₂ : List α} (h : List.Subperm l₁ l₂) : List.Subperm (l ++ l₁) (l ++ l₂) := by
  rw [List.subperm_ext_iff]
  intro x _
  simp only [List.count_append]
  exact Nat.add_le_add_left (subperm_count_le h x) _

theorem subperm_append_right_of {α : Type} [DecidableEq α] (l : List α)
    {l₁ l₂ : List α} (h : List.Subperm l₁ l₂) : List.Subperm (l₁ ++ l) (l₂ ++ l) := by
  rw [List.subperm_ext_iff]
  intro x _
  simp only [List.count_append]
  exact Nat.add_le_add_right (subperm_count_le h x) _

theorem nodup_of_subperm {α : Type} {l₁ l₂ : List α} (h : List.Subperm l₁ l₂)
    (hd : l₂.Nodup) : l₁.Nodup := by
  obtain ⟨l, hp, hs⟩ := h
  exact hp.nodup_iff.mp (hs.nodup hd)

theorem session_request_ids_promote (r : pending_request)
    (rest : List pending_request) (infl : List (String × pending_request))
    (t t' : Nat) :
    List.Subperm (session_request_ids ⟨rest, mapInsert infl r.request_id r, t'⟩)
      (session_request_ids ⟨r :: rest, infl, t⟩) := by
  rw [List.subperm_ext_iff]
  intro x _
  have hcount : List.count x ((mapErase infl r.request_id).map (fun p => p.1)) ≤
      List.count x (infl.map (fun p => p.1)) :=
    ((List.filter_sublist infl).map (fun p => p.1)).count_le x
  simp only [session_request_ids, mapInsert, mapErase, List.map_append,
    List.count_append, List.map_cons, List.count_cons, List.map_nil,
    List.count_nil] at *
  omega

theorem poll_session_subperm (s : server_session) (now : Nat) :
    List.Subperm (session_request_ids (poll_session s now).2) (session_request_ids s) := by
  obtain ⟨q, infl, t⟩ := s
  match q with
  | [] =>
      simp only [poll_session, poll_wait_loop, poll_second_dequeue]
      exact List.Subperm.refl _
  | [r] =>
      simpa [poll_session, poll_wait_loop, poll_second_dequeue] using
        session_request_ids_promote r [] infl t now
  | r :: r2 :: rest =>
      have h1 := session_request_ids_promote r (r2 :: rest) infl t now
      have h2 := session_request_ids_promote r2 rest
        (mapInsert infl r.request_id r) now now
      simpa [poll_session, poll_wait_loop, poll_second_dequeue] using h2.trans h1

theorem response_session_subperm (rid payload : String) (s : server_session)
    (now : Nat) :
    List.Subperm (session_request_ids (response_session rid payload s now).2)
      (session_request_ids s) := by
  obtain ⟨q, infl, t⟩ := s
  simp only [response_session]
  cases hlk : List.lookup rid infl with
  | none => exact List.Subperm.refl _
  | some r =>
      refine List.Sublist.subperm ?_
      simp only [session_request_ids]
      exact (List.Sublist.refl _).append
        ((List.filter_sublist infl).map (fun p => p.1))

theorem map_update_id (l : List (String × server_session)) (sid : String)
    (s' : server_session) (h : ∀ p ∈ l, p.1 ≠ sid) :
    l.map (fun p => if p.1 == sid then (p.1, s') else p) = l := by
  induction l with
  | nil => rfl
  | cons p rest ih =>
      have hp : (p.1 == sid) = false := by
        simpa using h p (by simp)
      have hrest := ih (fun q hq => h q (List.mem_cons_of_mem p hq))
      rw [List.map_cons, if_neg (by simp [hp]), hrest]

theorem relay_ids_update_subperm (l : List (String × server_session))
    (sid : String) (s s' : server_session)
    (hkeys : (l.map (fun p => p.1)).Nodup)
    (hlk : l.lookup sid = some s)
    (hsub : List.Subperm (session_request_ids s') (session_request_ids s)) :
    List.Subperm
      ((l.map (fun p => if p.1 == sid then (p.1, s') else p)).flatMap
        (fun p => session_request_ids p.2))
      (l.flatMap (fun p => session_request_ids p.2)) := by
  induction l with
  | nil => simp at hlk
  | cons p rest ih =>
      obtain ⟨k, v⟩ := p
      by_cases hp : k = sid
      · subst hp
        have hv : v = s := by
          have hl : List.lookup k ((k, v) :: rest) = some v := by
            simp [List.lookup]
          rw [hl] at hlk
          exact Option.some_inj.mp hlk
        have hrest : ∀ q ∈ rest, q.1 ≠ k := by
          intro q hq hcontra
          have hnot := (List.nodup_cons.mp hkeys).1
          exact hnot (hcontra ▸ List.mem_map_of_mem (fun p => p.1) hq)
        have hmap := map_update_id rest k s' hrest
        simp only [List.map_cons, beq_self_eq_true, if_true, hmap,
          List.flatMap_cons]
        exact subperm_append_right_of _ (hv ▸ hsub)
      · have hbeq : (k == sid) = false := by simpa using hp
        have hlk' : rest.lookup sid = some s := by
          have hl : List.lookup sid ((k, v) :: rest) = List.lookup sid rest := by
            simp [List.lookup, show (sid == k) = false by
              simpa using Ne.symm hp]
          rw [hl] at hlk
          exact hlk
        simp only [List.map_cons, hbeq, Bool.false_eq_true, if_false,
          List.flatMap_cons]
        exact subperm_append_left_of _
          (ih (List.nodup_cons.mp hkeys).2 hlk')

theorem message_enqueue_invariant (sid : String) (s : server_session)
    (rest : List (String × server_session)) (rid payload : String)
    (hkeys : (((sid, s) :: rest).map (fun p => p.1)).Nodup)
    (hinv : request_id_invariant ⟨(sid, s) :: rest⟩)
    (hfresh : rid ∉ relay_request_ids ⟨(sid, s) :: rest⟩) :
    request_id_invariant
      (update_session ⟨(sid, s) :: rest⟩ sid (message_enqueue rid payload s)) := by
  have hk : (sid :: rest.map (fun p => p.1)).Nodup := by
    simpa using hkeys
  have hrest : ∀ q ∈ rest, q.1 ≠ sid := by
    intro q hq hcontra
    exact (List.nodup_cons.mp hk).1
      (hcontra ▸ List.mem_map_of_mem (fun p => p.1) hq)
  simp only [request_id_invariant, relay_request_ids, update_session,
    List.map_cons, beq_self_eq_true, if_true, map_update_id rest sid _ hrest,
    List.flatMap_cons, session_request_ids, message_enqueue,
    List.map_append, List.map_cons, List.map_nil] at hinv hfresh ⊢
  simp only [List.append_assoc, List.singleton_append] at hinv hfresh ⊢
  exact List.nodup_middle.mpr (List.nodup_cons.mpr
    ⟨by simpa using hfresh, by simpa using hinv⟩)

/-- Claim C7: at every state satisfying the request-id invariant — each
request id appears in at most one of the pending queue and the in-flight
index of at most one session — the three session-mutating endpoint operations
(poll's dequeue-and-promote, response's removal, message's enqueue of a fresh
request id) each preserve the invariant. -/
theorem C7_request_id_uniqueness_preserved (rl : relay_state)
    (sid rid payload body_payload : String) (w : wait_outcome) (now : Nat)
    (hkeys : (rl.sessions.map (fun p => p.1)).Nodup)
    (hinv : request_id_invariant rl)
    (hfresh : rid ∉ relay_request_ids rl) :
    request_id_invariant (poll_handler rl sid now).2 ∧
    request_id_invariant (response_handler rl sid rid payload now).2 ∧
    request_id_invariant (message_handler rl rid (some body_payload) w).2 := by
  refine ⟨?_, ?_, ?_⟩
  · unfold poll_handler
    cases hlk : rl.sessions.lookup sid with
    | none => exact hinv
    | some s =>
        have := relay_ids_update_subperm rl.sessions sid s
          (poll_session s now).2 hkeys hlk (poll_session_subperm s now)
        exact nodup_of_subperm this hinv
  · unfold response_handler
    cases hlk : rl.sessions.lookup sid with
    | none => exact hinv
    | some s =>
        have := relay_ids_update_subperm rl.sessions sid s
          (response_session rid payload s now).2 hkeys hlk
          (response_session_subperm rid payload s now)
        exact nodup_of_subperm this hinv
  · obtain ⟨sessions⟩ := rl
    cases sessions with
    | nil => simpa only [message_handler] using hinv
    | cons p rest =>
        obtain ⟨sid0, s0⟩ := p
        have hemi := message_enqueue_invariant sid0 s0 rest rid body_payload
          hkeys hinv hfresh
        cases w with
        | ready p' => simpa only [message_handler] using hemi
        | timeout => simpa only [message_handler] using hemi

/-- Claim C1, the code evaluated at the failing inputs: a poll on a session
with exactly one queued request dequeues it into the in-flight index yet
returns no request (the handler answers 204), and a poll on a session with
two queued requests dequeues and promotes both while returning only the
second — never "exactly one dequeue, returning that same request". -/
theorem C1_poll_double_dequeue_bug :
    poll_session ⟨[⟨"a1", "p1"⟩], [], 0⟩ 7 =
      (none, ⟨[], [("a1", ⟨"a1", "p1"⟩)], 7⟩) ∧
    poll_session ⟨[⟨"a1", "p1"⟩, ⟨"a2", "p2"⟩], [], 0⟩ 7 =
      (some ⟨"a2", "p2"⟩,
        ⟨[], [("a1", ⟨"a1", "p1"⟩), ("a2", ⟨"a2", "p2"⟩)], 7⟩) := by
  decide

/-- Claim C4, the code evaluated at the failing input: with queue
["old", "new"] (oldest first) a successful poll returns the request "new",
not the oldest request "old" that was still queued when the poll began. -/
theorem C4_poll_returns_second_oldest_bug :
    (poll_session ⟨[⟨"old", "x"⟩, ⟨"new", "y"⟩], [], 0⟩ 1).1 =
      some ⟨"new", "y"⟩ ∧
    (poll_session ⟨[⟨"old", "x"⟩, ⟨"new", "y"⟩], [], 0⟩ 1).1 ≠
      some ⟨"old", "x"⟩ := by
  decide

/-- Claim C6, the code evaluated at the failing input: two poll calls
composed sequentially — one legal interleaving of two concurrent polls on the
same session — with exactly one queued request: neither call receives it (the
first consumes it into the in-flight index and answers 204, the second finds
the queue empty), instead of exactly one of the two receiving it. -/
theorem C6_concurrent_polls_lose_single_request :
    (poll_session ⟨[⟨"r1", "p"⟩], [], 0⟩ 1).1 = none ∧
    (poll_session (poll_session ⟨[⟨"r1", "p"⟩], [], 0⟩ 1).2 2).1 = none := by
  decide

/-- Claim C2 counterexample: a concrete session with request "q1" in flight —
after the message timeout branch runs, "q1" is still in the in-flight index
(nothing was removed), and a late response for it is resolved and delivered
to the promise rather than finding it absent and being discarded. -/
theorem C2_timeout_removal_counterexample :
    (message_timeout_branch ⟨[], [("q1", ⟨"q1", "b"⟩)], 0⟩).1 = 504 ∧
    (message_timeout_branch
        ⟨[], [("q1", ⟨"q1", "b"⟩)], 0⟩).2.in_flight_requests.lookup "q1" =
      some ⟨"q1", "b"⟩ ∧
    (response_session "q1" "late"
        (message_timeout_branch ⟨[], [("q1", ⟨"q1", "b"⟩)], 0⟩).2 3).1.resolved =
      some (⟨"q1", "b"⟩, "late") := by
  decide

/-- Claim C2 (amended): when the message wait times out the handler returns
504 to the caller but removes nothing from the in-flight index; a response
arriving afterward for a request id still in flight finds it present and
resolves its waiter (with no caller left to observe it), rather than being
discarded. -/
theorem C2_timeout_leaves_request_in_flight (s : server_session)
    (rid payload : String) (r : pending_request) (now : Nat)
    (h : s.in_flight_requests.lookup rid = some r) :
    message_timeout_branch s = (504, s) ∧
    (response_session rid payload (message_timeout_branch s).2 now).1.resolved
      = some (r, payload) := by
  refine ⟨rfl, ?_⟩
  simp [message_timeout_branch, response_session, h]

theorem C2_timeout_leaves_request_in_flight_witness :
    message_timeout_branch ⟨[], [("q1", ⟨"q1", "b"⟩)], 0⟩ =
      (504, ⟨[], [("q1", ⟨"q1", "b"⟩)], 0⟩) ∧
    (response_session "q1" "late"
        (message_timeout_branch ⟨[], [("q1", ⟨"q1", "b"⟩)], 0⟩).2 3).1.resolved
      = some (⟨"q1", "b"⟩, "late") :=
  C2_timeout_leaves_request_in_flight ⟨[], [("q1", ⟨"q1", "b"⟩)], 0⟩
    "q1" "late" ⟨"q1", "b"⟩ 3 (by decide)

/-- Claim C3 counterexample: a concrete output of the id generator is 16 hex
characters long, not the at-least-32 hex characters that 128 bits of
randomness would require. -/
theorem C3_id_length_counterexample :
    (generate_id (fun _ => 0)).length = 16 ∧
    ¬ 32 ≤ (generate_id (fun _ => 0)).length := by
  decide

/-- Claim C3 (amended): every identifier the generator produces is exactly 16
lowercase-hex characters, i.e. 64 bits of randomness — half of the 128 bits
the claim requires. -/
theorem C3_id_is_sixteen_hex_chars (draw : Nat → Fin 16) :
    (generate_id draw).length = 16 ∧
    ∀ c ∈ (generate_id draw).data, c ∈ hex_alphabet := by
  constructor
  · show ((List.range 16).map (fun i => hexDigit (draw i))).length = 16
    simp
  · intro c hc
    have hc' : c ∈ (List.range 16).map (fun i => hexDigit (draw i)) := hc
    obtain ⟨i, _, rfl⟩ := List.mem_map.mp hc'
    have hhex : ∀ v : Fin 16, hexDigit v ∈ hex_alphabet := by decide
    exact hhex (draw i)

/-- Claim C5: a response submission on a known session whose request id is
not in the in-flight index answers 200 with no resolution and leaves the
session — queue, in-flight index, last-activity — exactly unchanged. -/
theorem C5_response_unknown_id_is_noop (s : server_session)
    (rid payload : String) (now : Nat)
    (h : s.in_flight_requests.lookup rid = none) :
    response_session rid payload s now = (⟨200, none⟩, s) := by
  simp [response_session, h]

theorem C5_response_unknown_id_is_noop_witness :
    response_session "zz" "late" ⟨[⟨"q2", "c"⟩], [("q1", ⟨"q1", "b"⟩)], 4⟩ 9 =
      (⟨200, none⟩, ⟨[⟨"q2", "c"⟩], [("q1", ⟨"q1", "b"⟩)], 4⟩) :=
  C5_response_unknown_id_is_noop ⟨[⟨"q2", "c"⟩], [("q1", ⟨"q1", "b"⟩)], 4⟩
    "zz" "late" 9 (by decide)

/-- Claim C8: when registration fails — transport failure, non-200 status,
unparsable body, or a body without `session_id` — `start` returns false
without retrying the single registration attempt, the client is not running,
the poll loop is not started, and the stored session id is unchanged. -/
theorem C8_start_fails_cleanly (blocking : Bool) (res : reg_http_result)
    (st : client_state) (hrun : st.running = false)
    (hfail : registration_failed res) :
    reverse_start blocking res st = (false, st) ∧
    is_running (reverse_start blocking res st).2 = false ∧
    (reverse_start blocking res st).2.poll_loop_started =
      st.poll_loop_started ∧
    (reverse_start blocking res st).2.session_id = st.session_id := by
  have hreg : register_with_proxy res st = (false, st) := by
    match res with
    | none => rfl
    | some (status, body) =>
        simp only [register_with_proxy]
        rcases hfail with h | hbody | ⟨fields, hfields, hlk⟩
        · rw [if_pos]
          simpa using h
        · subst hbody
          split <;> rfl
        · subst hfields
          split
          · rfl
          · simp [hlk]
  have hstart : reverse_start blocking res st = (false, st) := by
    simp only [reverse_start, hrun, Bool.false_eq_true, if_false, hreg]
  refine ⟨hstart, ?_, ?_, ?_⟩ <;> simp [hstart, is_running, hrun]

theorem C8_start_fails_cleanly_witness :
    reverse_start true (some (500, none)) ⟨"", false, false⟩ =
      (false, ⟨"", false, false⟩) ∧
    is_running (reverse_start true (some (500, none))
      ⟨"", false, false⟩).2 = false :=
  have h := C8_start_fails_cleanly true (some (500, none)) ⟨"", false, false⟩
    rfl (Or.inl (by decide))
  ⟨h.1, h.2.1⟩

/-- Claim C9: in the agent's poll loop a 204 reply is a success and the loop
re-polls with zero sleep; a transport failure or any non-success status makes
the iteration sleep `retry_delay_seconds` — 5 by default — before re-polling,
leaving the client state (including the running flag) untouched. -/
theorem C9_poll_loop_retry_behavior (cfg : client_config) (st : client_state)
    (send_ok : Bool) (status : Nat) (body body' : poll_body)
    (h200 : status ≠ 200) (h204 : status ≠ 204) :
    poll_loop_iteration cfg (.reply 204 body') send_ok st = (0, st) ∧
    poll_loop_iteration cfg .conn_fail send_ok st =
      (cfg.retry_delay_seconds, st) ∧
    poll_loop_iteration cfg (.reply status body) send_ok st =
      (cfg.retry_delay_seconds, st) ∧
    ({} : client_config).retry_delay_seconds = 5 := by
  refine ⟨?_, ?_, ?_, rfl⟩
  · simp [poll_loop_iteration, process_poll]
  · simp [poll_loop_iteration, process_poll]
  · simp [poll_loop_iteration, process_poll, h200, h204]

theorem C9_poll_loop_retry_behavior_witness :
    poll_loop_iteration {} (.reply 204 .missing_fields) true ⟨"s", true, true⟩ =
      (0, ⟨"s", true, true⟩) ∧
    poll_loop_iteration {} .conn_fail true ⟨"s", true, true⟩ =
      (({} : client_config).retry_delay_seconds, ⟨"s", true, true⟩) ∧
    poll_loop_iteration {} (.reply 500 .unparsable) true ⟨"s", true, true⟩ =
      (({} : client_config).retry_delay_seconds, ⟨"s", true, true⟩) ∧
    ({} : client_config).retry_delay_seconds = 5 :=
  C9_poll_loop_retry_behavior {} ⟨"s", true, true⟩ true 500 .unparsable
    .missing_fields (by decide) (by decide)

/-- Claim C10: with at least one registered session, the message endpoint
routes the new request to `sessions.begin()` — the entry whose session id is
lexicographically smallest in the ordered map — deterministically, and never
answers 503. -/
theorem C10_message_routes_to_min_session (rl : relay_state) (rid : String)
    (body : Option String) (w : wait_outcome)
    (hsorted : sessions_sorted rl) (hne : rl.sessions ≠ []) :
    (message_handler rl rid body w).1.status ≠ 503 ∧
    ∃ sid s rest, rl.sessions = (sid, s) :: rest ∧
      (message_handler rl rid body w).1.routed_to = some sid ∧
      ∀ p ∈ rl.sessions, sid ≤ p.1 := by
  obtain ⟨sessions⟩ := rl
  cases sessions with
  | nil => exact absurd rfl hne
  | cons hd rest =>
      obtain ⟨sid, s⟩ := hd
      have hpw := (List.pairwise_cons.mp hsorted).1
      have hmin : ∀ p ∈ (sid, s) :: rest, sid ≤ p.1 := by
        intro p hp
        rcases List.mem_cons.mp hp with h | h
        · subst h
          exact le_refl _
        · exact le_of_lt (hpw p h)
      refine ⟨?_, sid, s, rest, rfl, ?_, hmin⟩
      · cases body with
        | none => simp [message_handler]
        | some pl =>
            cases w <;> simp [message_handler, message_timeout_branch]
      · cases body with
        | none => simp [message_handler]
        | some pl =>
            cases w <;> simp [message_handler, message_timeout_branch]

theorem C10_message_routes_to_min_session_witness :
    (message_handler ⟨[("aa", ⟨[], [], 0⟩), ("bb", ⟨[], [], 1⟩)]⟩ "r1"
        (some "req") .timeout).1.status ≠ 503 ∧
    ∃ sid s rest,
      (⟨[("aa", ⟨[], [], 0⟩), ("bb", ⟨[], [], 1⟩)]⟩ : relay_state).sessions =
        (sid, s) :: rest ∧
      (message_handler ⟨[("aa", ⟨[], [], 0⟩), ("bb", ⟨[], [], 1⟩)]⟩ "r1"
          (some "req") .timeout).1.routed_to = some sid ∧
      ∀ p ∈ (⟨[("aa", ⟨[], [], 0⟩), ("bb", ⟨[], [], 1⟩)]⟩ :
          relay_state).sessions, sid ≤ p.1 :=
  C10_message_routes_to_min_session
    ⟨[("aa", ⟨[], [], 0⟩), ("bb", ⟨[], [], 1⟩)]⟩ "r1" (some "req") .timeout
    (by
      simp [sessions_sorted, List.pairwise_cons]
      decide)
    (by decide)

theorem C7_request_id_uniqueness_preserved_witness :
    request_id_invariant (poll_handler
      ⟨[("aa", ⟨[⟨"r1", "p"⟩], [("r2", ⟨"r2", "q"⟩)], 0⟩)]⟩ "aa" 5).2 ∧
    request_id_invariant (response_handler
      ⟨[("aa", ⟨[⟨"r1", "p"⟩], [("r2", ⟨"r2", "q"⟩)], 0⟩)]⟩ "aa" "r9" "pl" 5).2 ∧
    request_id_invariant (message_handler
      ⟨[("aa", ⟨[⟨"r1", "p"⟩], [("r2", ⟨"r2", "q"⟩)], 0⟩)]⟩ "r9" (some "b")
      .timeout).2 :=
  C7_request_id_uniqueness_preserved
    ⟨[("aa", ⟨[⟨"r1", "p"⟩], [("r2", ⟨"r2", "q"⟩)], 0⟩)]⟩ "aa" "r9" "pl" "b"
    .timeout 5 (by decide)
    (by simp only [request_id_invariant]; decide) (by decide)
